import Mathlib

/-!
Shallow embedding of the WinGo predictor (`src/app.py`) in Lean 4.

The embedded core is the `WinGoPredictor` class: its mutable fields become the
`PredictorState` structure, the `evaluate` method becomes a pure function from
a state and a window to the returned tuple, the successor state, and the list
of records appended to the store (`save_prediction` calls).  `follow_trend`
and `analyze` are the trend heuristic and the frequency analyzer.  Python's
`collections.Counter.most_common(3)` is embedded as a sort of the distinct
magnitudes (in first-encounter order) by descending count with ties broken by
first-occurrence index, which is its documented behaviour.  `reset_daily`'s
in-memory part returns the state to its initial value; its database export and
delete are external-store effects, modelled as clearing the record list.
-/

namespace WinGo

/-- The `BigSmall` category: `"Big"` / `"Small"` strings in the Python code. -/
inductive BigSmall where
  | Big : BigSmall
  | Small : BigSmall
deriving DecidableEq

/-- Render the category back to the Python string (used in f-strings). -/
def BigSmall.str : BigSmall → String
  | .Big => "Big"
  | .Small => "Small"

/-- `"Big" if base == "Small" else "Small"` — the strategy-switch inversion. -/
def BigSmall.flip : BigSmall → BigSmall
  | .Big => .Small
  | .Small => .Big

/-- One row of the DataFrame consumed by `evaluate`: columns `Issue`,
`Number`, `Color`, `BigSmall` as built by `fetch_data`. -/
structure Event where
  issue : String
  number : Int
  bigSmall : BigSmall
  color : String
deriving DecidableEq

/-- The mutable fields of `WinGoPredictor` (`__init__`). -/
structure PredictorState where
  loss_streak : Nat
  total_predictions : Nat
  total_wins : Nat
  total_losses : Nat
  last_issue : Option String
  current_prediction : Option BigSmall
  strategy : String
deriving DecidableEq

/-- The state set up by `WinGoPredictor.__init__`. -/
def initState : PredictorState :=
  { loss_streak := 0
    total_predictions := 0
    total_wins := 0
    total_losses := 0
    last_issue := none
    current_prediction := none
    strategy := "Follow-Trend" }

/-- Python `s[-5:]`: the last (at most) `n` characters of a string. -/
def strLastN (s : String) (n : Nat) : String :=
  String.mk (s.data.drop (s.data.length - n))

/-- `WinGoPredictor.follow_trend`: reads the first 10 `BigSmall` entries,
checks the reversal rules (>= 7 of one kind), then the first-3 momentum rules
(Python `all(...)`, vacuously true on a short or empty slice), then the
majority with ties going to `Small`. -/
def follow_trend (w : List Event) : BigSmall :=
  let last := (w.map Event.bigSmall).take 10
  let big_count := last.count BigSmall.Big
  let small_count := last.count BigSmall.Small
  if big_count ≥ 7 then BigSmall.Small
  else if small_count ≥ 7 then BigSmall.Big
  else if (last.take 3).all (fun x => x = BigSmall.Big) then BigSmall.Big
  else if (last.take 3).all (fun x => x = BigSmall.Small) then BigSmall.Small
  else if big_count > small_count then BigSmall.Big else BigSmall.Small

/-- Number of occurrences of magnitude `m` in the window (`Counter` count). -/
def occCount (w : List Event) (m : Int) : Nat :=
  (w.map Event.number).count m

/-- Index of the first occurrence of magnitude `m` in the window. -/
def firstIdx (w : List Event) (m : Int) : Nat :=
  (w.map Event.number).indexOf m

/-- The distinct values of a list in first-encounter order — the key order of
a Python `Counter` built from the window. -/
def firstEncounter (l : List Int) : List Int :=
  l.foldl (fun acc m => if m ∈ acc then acc else acc ++ [m]) []

/-- The comparison `Counter.most_common` sorts by: a stable descending sort on
counts over insertion-ordered items, i.e. count descending with ties broken by
first-occurrence index ascending.  Elements are `(magnitude, count, firstIdx)`
triples. -/
def hotKeyLE (p q : Int × Nat × Nat) : Prop :=
  q.2.1 < p.2.1 ∨ (p.2.1 = q.2.1 ∧ p.2.2 ≤ q.2.2)

instance : DecidableRel hotKeyLE := fun p q => by
  unfold hotKeyLE; infer_instance

instance : IsTotal (Int × Nat × Nat) hotKeyLE where
  total p q := by
    unfold hotKeyLE
    rcases Nat.lt_trichotomy p.2.1 q.2.1 with h | h | h
    · exact Or.inr (Or.inl h)
    · rcases Nat.le_total p.2.2 q.2.2 with h2 | h2
      · exact Or.inl (Or.inr ⟨h, h2⟩)
      · exact Or.inr (Or.inr ⟨h.symm, h2⟩)
    · exact Or.inl (Or.inl h)

instance : IsTrans (Int × Nat × Nat) hotKeyLE where
  trans p q u hpq hqu := by
    unfold hotKeyLE at hpq hqu ⊢
    rcases hpq with h1 | ⟨h1, h1i⟩ <;> rcases hqu with h2 | ⟨h2, h2i⟩
    · exact Or.inl (h2.trans h1)
    · exact Or.inl (h2 ▸ h1)
    · exact Or.inl (h1 ▸ h2)
    · exact Or.inr ⟨h1.trans h2, h1i.trans h2i⟩

/-- The distinct magnitudes of the window keyed with their count and
first-occurrence index, in first-encounter (Counter insertion) order. -/
def keyedNumbers (w : List Event) : List (Int × Nat × Nat) :=
  (firstEncounter (w.map Event.number)).map
    (fun m => (m, occCount w m, firstIdx w m))

/-- `WinGoPredictor.analyze`: `Counter(df["Number"]).most_common(3)`, keeping
the magnitudes only. -/
def analyze (w : List Event) : List Int :=
  (((keyedNumbers w).insertionSort hotKeyLE).map Prod.fst).take 3

/-- The tuple returned by `evaluate`.  The empty-window branch returns the
placeholder tuple `("-----", "-", "-", "-", "No Data", [])`, whose dash
fields stand in for the integer/string data of the non-empty branch; it is
embedded as the `noData` constructor. -/
inductive ObsResult where
  | noData : ObsResult
  | result (issue : String) (number : Int) (bigSmall : BigSmall) (color : String)
      (outcome : String) (hot : List Int) : ObsResult
deriving DecidableEq

/-- The `outcome` component of the returned tuple (`"No Data"` on the
empty-window branch). -/
def ObsResult.outcomeStr : ObsResult → String
  | .noData => "No Data"
  | .result _ _ _ _ o _ => o

/-- Replace the `outcome` component of a returned tuple. -/
def ObsResult.withOutcome : ObsResult → String → ObsResult
  | .noData, _ => .noData
  | .result i n b c _ h, o => .result i n b c o h

/-- One row appended to the `predictions` table by `save_prediction`
(timestamp omitted: wall-clock time is outside the embedding). -/
structure PredictionRecord where
  issue : String
  number : Int
  bigsmall : BigSmall
  color : String
  prediction : String
  strategy : String
  outcome : String
deriving DecidableEq

/-- The scoring step of `evaluate` (the `if self.current_prediction is not
None` block): returns the outcome string and the updated counters. -/
def score (s : PredictorState) (result : BigSmall) : String × PredictorState :=
  match s.current_prediction with
  | some p =>
    if p = result then
      ("WIN ✅", { s with total_predictions := s.total_predictions + 1,
                          total_wins := s.total_wins + 1, loss_streak := 0 })
    else
      ("LOSS ❌", { s with total_predictions := s.total_predictions + 1,
                           total_losses := s.total_losses + 1,
                           loss_streak := s.loss_streak + 1 })
  | none => ("First Run", s)

/-- The strategy-selection step of `evaluate` (`if self.loss_streak >= 3`):
returns the stored prediction and strategy label. -/
def chooseStrategy (streak : Nat) (base : BigSmall) : BigSmall × String :=
  if streak ≥ 3 then (base.flip, "Switched (losses=" ++ toString streak ++ ")")
  else (base, "Follow-Trend")

/-- `prediction_display = f"{self.current_prediction} ({twoNums})"` with
`twoNums = ", ".join(map(str, hot[:2])) if hot else "?"`. -/
def predictionDisplay (pred : BigSmall) (hot : List Int) : String :=
  let twoNums := if hot = [] then "?" else String.intercalate ", " ((hot.take 2).map toString)
  pred.str ++ " (" ++ twoNums ++ ")"

/-- `WinGoPredictor.evaluate`: takes the state and the fetched window
(most-recent-first), returns the result tuple, the successor state, and the
list of rows appended to the store during the call. -/
def evaluate (s : PredictorState) (w : List Event) :
    ObsResult × PredictorState × List PredictionRecord :=
  match w with
  | [] => (ObsResult.noData, s, [])
  | latest :: _ =>
    if s.last_issue = some latest.issue then
      (ObsResult.result (strLastN latest.issue 5) latest.number latest.bigSmall
        latest.color "" (analyze w), s, [])
    else
      let sc := score s latest.bigSmall
      let ps := chooseStrategy sc.2.loss_streak (follow_trend w)
      let s2 : PredictorState :=
        { sc.2 with last_issue := some latest.issue,
                    current_prediction := some ps.1, strategy := ps.2 }
      let hot := analyze w
      let row : PredictionRecord :=
        { issue := latest.issue, number := latest.number, bigsmall := latest.bigSmall,
          color := latest.color, prediction := predictionDisplay ps.1 hot,
          strategy := ps.2, outcome := sc.1 }
      (ObsResult.result (strLastN latest.issue 5) latest.number latest.bigSmall
        latest.color sc.1 hot, s2, [row])

/-- The in-memory part of `reset_daily`: every predictor field is returned to
its `__init__` value.  The CSV export and the `DELETE FROM predictions` are
external-store effects. -/
def reset_daily (_s : PredictorState) : PredictorState := initState

/-- One call made against the predictor singleton: a poll (`evaluate` on a
fetched window) or the daily reset. -/
inductive Op where
  | observe (w : List Event) : Op
  | reset : Op

/-- State transition of one call. -/
def applyOp (s : PredictorState) : Op → PredictorState
  | .observe w => (evaluate s w).2.1
  | .reset => reset_daily s

/-- The state after a sequence of calls starting from the fresh predictor. -/
def runOps (ops : List Op) : PredictorState :=
  ops.foldl applyOp initState

/-- The conservation invariant of the counters. -/
def counterInvariant (s : PredictorState) : Prop :=
  s.total_wins + s.total_losses = s.total_predictions

/-- Round-half-to-even of a rational to an integer — the embedding of
Python's `round` (Python floats are modelled as exact rationals). -/
def roundHalfEven (x : ℚ) : ℤ :=
  let n := ⌊x⌋
  if x - n < 1/2 then n
  else if 1/2 < x - n then n + 1
  else if n % 2 = 0 then n else n + 1

/-- `round(x, 1)`: round to one decimal place. -/
def pyRound1 (x : ℚ) : ℚ :=
  (roundHalfEven (x * 10) : ℚ) / 10

/-- `acc = (total_wins / total_predictions * 100) if total_predictions > 0
else 0`, then `round(float(acc), 1)` in the route's JSON. -/
def accuracyOf (s : PredictorState) : ℚ :=
  if 0 < s.total_predictions then
    pyRound1 ((s.total_wins : ℚ) / (s.total_predictions : ℚ) * 100)
  else 0

/-- The fields of the `/data` route's JSON payload that report the observation
(`issue`, `number`, `result`, `color`, `prediction`, `strategy`, `outcome`,
`wins`, `losses`, `total`, `accuracy`, `hot`).  The display-only extras
`next_issue` and `last10` are not part of the observation result. -/
structure DataPayload where
  issue : String
  number : Int
  result : BigSmall
  color : String
  prediction : Option BigSmall
  strategy : String
  outcome : String
  wins : Nat
  losses : Nat
  total : Nat
  accuracy : ℚ
  hot : List Int
deriving DecidableEq

/-- The `/data` route around `evaluate`: `none` models the 500 error on an
empty window; otherwise the JSON payload is assembled from the returned tuple
and the post-call predictor fields. -/
def dataRoute (s : PredictorState) (w : List Event) :
    Option (DataPayload × PredictorState × List PredictionRecord) :=
  match w with
  | [] => none
  | _ :: _ =>
    let es := evaluate s w
    match es.1 with
    | .noData => none
    | .result issue number result color outcome hot =>
      some ({ issue := issue, number := number, result := result, color := color,
              prediction := es.2.1.current_prediction, strategy := es.2.1.strategy,
              outcome := outcome, wins := es.2.1.total_wins,
              losses := es.2.1.total_losses, total := es.2.1.total_predictions,
              accuracy := accuracyOf es.2.1, hot := hot }, es.2.1, es.2.2)

/-- Rule 5 of the trend heuristic on its own: the simple majority of the
given categories, an exact tie yielding `Small`. -/
def majorityDefaultSmall (cs : List BigSmall) : BigSmall :=
  if cs.count BigSmall.Big > cs.count BigSmall.Small then BigSmall.Big
  else BigSmall.Small

/-- The `last` variable of `follow_trend`: the first ten categories. -/
def window10 (w : List Event) : List BigSmall :=
  (w.map Event.bigSmall).take 10

/-- Sample event used to exercise the repeat-poll branch. -/
def evC1 : Event :=
  { issue := "1001", number := 7, bigSmall := BigSmall.Big, color := "green" }

/-- Sample mid-session state: one win, one loss, one pending prediction. -/
def sC2 : PredictorState :=
  { loss_streak := 1, total_predictions := 2, total_wins := 1, total_losses := 1,
    last_issue := some "1001", current_prediction := some BigSmall.Big,
    strategy := "Follow-Trend" }

/-- Sample window with a fresh issue id, following `sC2`. -/
def wC2 : List Event :=
  [{ issue := "1002", number := 8, bigSmall := BigSmall.Big, color := "red" }]

/-- Sample state on a three-loss streak with a pending `Big` prediction. -/
def sC3 : PredictorState :=
  { loss_streak := 3, total_predictions := 5, total_wins := 1, total_losses := 4,
    last_issue := some "1001", current_prediction := some BigSmall.Big,
    strategy := "Switched (losses=3)" }

/-- Sample event that resolves `Small`, losing against `sC3`'s prediction. -/
def evC3 : Event :=
  { issue := "1002", number := 2, bigSmall := BigSmall.Small, color := "red" }

/-- Sample ten-event window with seven `Big` entries. -/
def wC4 : List Event :=
  [{ issue := "110", number := 9, bigSmall := BigSmall.Big, color := "red" },
   { issue := "109", number := 8, bigSmall := BigSmall.Big, color := "green" },
   { issue := "108", number := 7, bigSmall := BigSmall.Big, color := "red" },
   { issue := "107", number := 2, bigSmall := BigSmall.Small, color := "red" },
   { issue := "106", number := 6, bigSmall := BigSmall.Big, color := "green" },
   { issue := "105", number := 5, bigSmall := BigSmall.Big, color := "green" },
   { issue := "104", number := 1, bigSmall := BigSmall.Small, color := "red" },
   { issue := "103", number := 9, bigSmall := BigSmall.Big, color := "red" },
   { issue := "102", number := 3, bigSmall := BigSmall.Small, color := "green" },
   { issue := "101", number := 7, bigSmall := BigSmall.Big, color := "red" }]

/-- Sample two-event window (one `Big`, one `Small`). -/
def wC5 : List Event :=
  [{ issue := "202", number := 7, bigSmall := BigSmall.Big, color := "red" },
   { issue := "201", number := 2, bigSmall := BigSmall.Small, color := "green" }]

/-- Sample state with one win out of two resolutions and a long last id. -/
def sC8 : PredictorState :=
  { loss_streak := 1, total_predictions := 2, total_wins := 1, total_losses := 1,
    last_issue := some "1000000", current_prediction := some BigSmall.Big,
    strategy := "Follow-Trend" }

/-- Sample window repeating the already-seen seven-character issue id. -/
def wC8 : List Event :=
  [{ issue := "1000000", number := 5, bigSmall := BigSmall.Big, color := "green" }]

/-- Sample window with repeated magnitudes for the frequency analyzer. -/
def wC9 : List Event :=
  [{ issue := "306", number := 3, bigSmall := BigSmall.Small, color := "green" },
   { issue := "305", number := 7, bigSmall := BigSmall.Big, color := "red" },
   { issue := "304", number := 3, bigSmall := BigSmall.Small, color := "green" },
   { issue := "303", number := 9, bigSmall := BigSmall.Big, color := "red" },
   { issue := "302", number := 7, bigSmall := BigSmall.Big, color := "red" },
   { issue := "301", number := 1, bigSmall := BigSmall.Small, color := "green" }]

/-- Sample state whose last seen issue id is numerically newer than `evC10`. -/
def sC10 : PredictorState :=
  { loss_streak := 0, total_predictions := 4, total_wins := 2, total_losses := 2,
    last_issue := some "2000", current_prediction := some BigSmall.Small,
    strategy := "Follow-Trend" }

/-- Sample event whose issue id is numerically and lexically older than the
one stored in `sC10`. -/
def evC10 : Event :=
  { issue := "1999", number := 4, bigSmall := BigSmall.Small, color := "red" }

end WinGo

namespace WinGo

/-- C7: `evaluate` on an empty window returns the no-data tuple, changes no
field of the state, appends no record, and (being a total function) raises
nothing. -/
theorem c7_empty_window (s : PredictorState) :
    evaluate s [] = (ObsResult.noData, s, []) := rfl

/-- C1 counterexample: after the first poll of issue `"1001"` resolves with
outcome `"First Run"`, repeating the same window returns a tuple whose
outcome component is the empty string, hence not the identical result the
claim demands. -/
theorem c1_counterexample :
    (evaluate (evaluate initState [evC1]).2.1 [evC1]).1 ≠
      (evaluate initState [evC1]).1 := by decide

/-- C1 amended: a second `evaluate` on a window whose head id was just
resolved performs no state mutation and appends no record, and returns the
previous tuple with its outcome component replaced by the empty string
(the local `outcome = ""` of the repeat branch), not the previous outcome. -/
theorem c1_repeat_poll (s0 : PredictorState) (ev : Event) (rest : List Event) :
    evaluate (evaluate s0 (ev :: rest)).2.1 (ev :: rest) =
      ((evaluate s0 (ev :: rest)).1.withOutcome "",
        (evaluate s0 (ev :: rest)).2.1, []) := by
  by_cases h : s0.last_issue = some ev.issue
  · simp [evaluate, h, ObsResult.withOutcome]
  · simp [evaluate, h, ObsResult.withOutcome]

/-- C6: `reset_daily` returns the predictor to its `__init__` state — all
four counters zero, no last issue, no pending prediction — and the next
`evaluate` on a non-empty window reports outcome `"First Run"` while leaving
every counter at zero. -/
theorem c6_reset_epoch (s : PredictorState) (ev : Event) (rest : List Event) :
    reset_daily s = initState ∧
    (reset_daily s).loss_streak = 0 ∧
    (reset_daily s).total_predictions = 0 ∧
    (reset_daily s).total_wins = 0 ∧
    (reset_daily s).total_losses = 0 ∧
    (reset_daily s).last_issue = none ∧
    (reset_daily s).current_prediction = none ∧
    (evaluate (reset_daily s) (ev :: rest)).1.outcomeStr = "First Run" ∧
    (evaluate (reset_daily s) (ev :: rest)).2.1.loss_streak = 0 ∧
    (evaluate (reset_daily s) (ev :: rest)).2.1.total_predictions = 0 ∧
    (evaluate (reset_daily s) (ev :: rest)).2.1.total_wins = 0 ∧
    (evaluate (reset_daily s) (ev :: rest)).2.1.total_losses = 0 := by
  refine ⟨rfl, rfl, rfl, rfl, rfl, rfl, rfl, ?_, ?_, ?_, ?_, ?_⟩ <;>
    simp [evaluate, reset_daily, initState, score, chooseStrategy,
      ObsResult.outcomeStr]


/-- C3: on the new-event path, the strategy branch uses the post-scoring loss
streak (which the stored state keeps): at streak >= 3 the stored prediction is
the complement of `follow_trend`'s output and the label is
`"Switched (losses=<streak>)"`; below 3 it is `follow_trend`'s output with
label `"Follow-Trend"`. -/
theorem c3_strategy_selection (s : PredictorState) (ev : Event) (rest : List Event)
    (h : s.last_issue ≠ some ev.issue) :
    ((evaluate s (ev :: rest)).2.1.loss_streak ≥ 3 →
      (evaluate s (ev :: rest)).2.1.current_prediction =
        some (follow_trend (ev :: rest)).flip ∧
      (evaluate s (ev :: rest)).2.1.strategy =
        "Switched (losses=" ++ toString (evaluate s (ev :: rest)).2.1.loss_streak ++ ")") ∧
    ((evaluate s (ev :: rest)).2.1.loss_streak < 3 →
      (evaluate s (ev :: rest)).2.1.current_prediction =
        some (follow_trend (ev :: rest)) ∧
      (evaluate s (ev :: rest)).2.1.strategy = "Follow-Trend") := by
  have hstreak : (evaluate s (ev :: rest)).2.1.loss_streak =
      (score s ev.bigSmall).2.loss_streak := by
    simp [evaluate, h]
  by_cases hs : (score s ev.bigSmall).2.loss_streak ≥ 3
  · refine ⟨fun _ => ?_, fun hlt => ?_⟩
    · simp [evaluate, h, chooseStrategy, hs, hstreak]
    · rw [hstreak] at hlt; omega
  · refine ⟨fun hge => ?_, fun _ => ?_⟩
    · rw [hstreak] at hge; omega
    · simp [evaluate, h, chooseStrategy, hs]

/-- C3 witness: from a three-loss streak, the losing resolution of issue
`"1002"` raises the streak to 4 and stores the complement of the trend
prediction under a `"Switched (losses=4)"` label. -/
theorem c3_witness :
    (evaluate sC3 [evC3]).2.1.current_prediction =
      some (follow_trend [evC3]).flip ∧
    (evaluate sC3 [evC3]).2.1.strategy =
      "Switched (losses=" ++ toString (evaluate sC3 [evC3]).2.1.loss_streak ++ ")" :=
  (c3_strategy_selection sC3 evC3 [] (by decide)).1 (by decide)

/-- C10: de-duplication is a bare string comparison with the single stored
id: whenever the head id differs from `last_issue` — with no ordering or
replay check — the full new-event path runs: the stored id is overwritten,
exactly one record (for the head event, carrying this call's outcome) is
appended, and the counters are scored against the pending prediction. -/
theorem c10_dedup_single_id (s : PredictorState) (ev : Event) (rest : List Event)
    (h : s.last_issue ≠ some ev.issue) :
    (evaluate s (ev :: rest)).2.1.last_issue = some ev.issue ∧
    (evaluate s (ev :: rest)).2.2.length = 1 ∧
    (∀ row ∈ (evaluate s (ev :: rest)).2.2,
      row.issue = ev.issue ∧ row.outcome = (evaluate s (ev :: rest)).1.outcomeStr) ∧
    (s.current_prediction = none →
      (evaluate s (ev :: rest)).2.1.total_predictions = s.total_predictions) ∧
    (∀ p, s.current_prediction = some p →
      (evaluate s (ev :: rest)).2.1.total_predictions = s.total_predictions + 1 ∧
      (p = ev.bigSmall →
        (evaluate s (ev :: rest)).2.1.total_wins = s.total_wins + 1 ∧
        (evaluate s (ev :: rest)).2.1.loss_streak = 0) ∧
      (p ≠ ev.bigSmall →
        (evaluate s (ev :: rest)).2.1.total_losses = s.total_losses + 1 ∧
        (evaluate s (ev :: rest)).2.1.loss_streak = s.loss_streak + 1)) := by
  refine ⟨by simp [evaluate, h], by simp [evaluate, h], ?_, ?_, ?_⟩
  · intro row hrow
    simp [evaluate, h, ObsResult.outcomeStr] at hrow ⊢
    simp [hrow]
  · intro hp
    simp [evaluate, h, score, hp]
  · intro p hp
    refine ⟨?_, fun heq => ?_, fun hne => ?_⟩
    · by_cases he : p = ev.bigSmall <;> simp [evaluate, h, score, hp, he]
    · simp [evaluate, h, score, hp, heq]
    · simp [evaluate, h, score, hp, hne]

/-- C10 witness: issue `"1999"` is numerically and lexically older than the
stored `"2000"`, yet the new-event path runs: the stored id becomes `"1999"`
and one record is appended. -/
theorem c10_witness :
    (evaluate sC10 [evC10]).2.1.last_issue = some "1999" ∧
    (evaluate sC10 [evC10]).2.2.length = 1 := by
  have h := c10_dedup_single_id sC10 evC10 [] (by decide)
  exact ⟨h.1, h.2.1⟩


/-- Python `all` over exactly three categories holds iff all three equal the
tested category. -/
theorem all3_eq_iff (a b c x : BigSmall) :
    ([a, b, c].all (fun y => y = x)) = true ↔ (a = x ∧ b = x ∧ c = x) := by
  cases a <;> cases b <;> cases c <;> cases x <;> decide

/-- C4: on a window of at least three entries, `follow_trend` applies its
rules over the first ten categories in the fixed order of the source, first
match winning: >= 7 `Big` gives `Small`; else >= 7 `Small` gives `Big`; else
first three all `Big` gives `Big`; else first three all `Small` gives
`Small`; else the simple majority with an exact tie giving `Small`. -/
theorem c4_trend_rule_order (w : List Event) (hw : 3 ≤ w.length) :
    (7 ≤ (window10 w).count BigSmall.Big → follow_trend w = BigSmall.Small) ∧
    ((window10 w).count BigSmall.Big < 7 →
      7 ≤ (window10 w).count BigSmall.Small → follow_trend w = BigSmall.Big) ∧
    ((window10 w).count BigSmall.Big < 7 →
      (window10 w).count BigSmall.Small < 7 →
      (window10 w).take 3 = [BigSmall.Big, BigSmall.Big, BigSmall.Big] →
      follow_trend w = BigSmall.Big) ∧
    ((window10 w).count BigSmall.Big < 7 →
      (window10 w).count BigSmall.Small < 7 →
      (window10 w).take 3 = [BigSmall.Small, BigSmall.Small, BigSmall.Small] →
      follow_trend w = BigSmall.Small) ∧
    ((window10 w).count BigSmall.Big < 7 →
      (window10 w).count BigSmall.Small < 7 →
      (window10 w).take 3 ≠ [BigSmall.Big, BigSmall.Big, BigSmall.Big] →
      (window10 w).take 3 ≠ [BigSmall.Small, BigSmall.Small, BigSmall.Small] →
      follow_trend w = majorityDefaultSmall (window10 w)) := by
  rcases w with _ | ⟨a, _ | ⟨b, _ | ⟨c, t⟩⟩⟩
  · exact absurd hw (by simp)
  · exact absurd hw (by simp)
  · exact absurd hw (by simp)
  haveI htake : (window10 (a :: b :: c :: t)).take 3 =
      [a.bigSmall, b.bigSmall, c.bigSmall] := rfl
  haveI htk : List.take 3 (List.take 10 (List.map Event.bigSmall (a :: b :: c :: t))) =
      [a.bigSmall, b.bigSmall, c.bigSmall] := rfl
  refine ⟨fun h1 => ?_, fun h1 h2 => ?_, fun h1 h2 h3 => ?_,
    fun h1 h2 h3 => ?_, fun h1 h2 h3 h4 => ?_⟩
  · simp only [follow_trend, window10] at h1 ⊢
    rw [if_pos h1]
  · simp only [follow_trend, window10] at h1 h2 ⊢
    rw [if_neg (Nat.not_le.mpr h1), if_pos h2]
  · rw [htake] at h3
    simp only [List.cons.injEq, and_true] at h3
    simp only [follow_trend, window10] at h1 h2 ⊢
    rw [htk, if_neg (Nat.not_le.mpr h1), if_neg (Nat.not_le.mpr h2)]
    rw [if_pos ((all3_eq_iff _ _ _ _).mpr ⟨h3.1, h3.2.1, h3.2.2⟩)]
  · rw [htake] at h3
    simp only [List.cons.injEq, and_true] at h3
    have hnb : ¬ ([a.bigSmall, b.bigSmall, c.bigSmall].all
        (fun y => y = BigSmall.Big)) = true := by
      rw [all3_eq_iff]
      rintro ⟨ha, _, _⟩
      rw [h3.1] at ha
      exact absurd ha (by decide)
    simp only [follow_trend, window10] at h1 h2 ⊢
    rw [htk, if_neg (Nat.not_le.mpr h1), if_neg (Nat.not_le.mpr h2), if_neg hnb]
    rw [if_pos ((all3_eq_iff _ _ _ _).mpr ⟨h3.1, h3.2.1, h3.2.2⟩)]
  · rw [htake] at h3 h4
    have hnb : ¬ ([a.bigSmall, b.bigSmall, c.bigSmall].all
        (fun y => y = BigSmall.Big)) = true := by
      rw [all3_eq_iff]
      rintro ⟨ha, hb, hc⟩
      exact h3 (by rw [ha, hb, hc])
    have hns : ¬ ([a.bigSmall, b.bigSmall, c.bigSmall].all
        (fun y => y = BigSmall.Small)) = true := by
      rw [all3_eq_iff]
      rintro ⟨ha, hb, hc⟩
      exact h4 (by rw [ha, hb, hc])
    simp only [follow_trend, window10, majorityDefaultSmall] at h1 h2 ⊢
    rw [htk, if_neg (Nat.not_le.mpr h1), if_neg (Nat.not_le.mpr h2), if_neg hnb,
      if_neg hns]

/-- C4 witness: a ten-event window with seven `Big` entries triggers the
first reversal rule and predicts `Small`. -/
theorem c4_witness : follow_trend wC4 = BigSmall.Small :=
  (c4_trend_rule_order wC4 (by decide)).1 (by decide)

/-- C5 counterexample: on the empty window the first-3-all-`Big` check of
`follow_trend` passes vacuously (Python `all` over an empty slice), so the
function returns `Big`, not the majority-tie default `Small` the claim
requires. -/
theorem c5_counterexample :
    follow_trend ([] : List Event) = BigSmall.Big ∧
    majorityDefaultSmall (([] : List Event).map Event.bigSmall) = BigSmall.Small ∧
    BigSmall.Big ≠ BigSmall.Small := by decide

/-- C5 amended: on a window of fewer than three entries the first-3 rules
trigger exactly when all available entries (vacuously, none) share a
category; the result still equals the simple majority with tie `Small` for
every non-empty such window, while the empty window yields `Big`. -/
theorem c5_short_window (w : List Event) (h : w.length < 3) :
    follow_trend w =
      if w = [] then BigSmall.Big
      else majorityDefaultSmall (w.map Event.bigSmall) := by
  rcases w with _ | ⟨a, _ | ⟨b, _ | ⟨c, t⟩⟩⟩
  · rfl
  · rcases a with ⟨ia, na, ab, ca⟩
    cases ab <;> simp [follow_trend, majorityDefaultSmall]
  · rcases a with ⟨ia, na, ab, ca⟩
    rcases b with ⟨ib, nb, bb, cb⟩
    cases ab <;> cases bb <;> simp [follow_trend, majorityDefaultSmall]
  · exact absurd h (by simp)

/-- C5 witness: the two-event window `[Big, Small]` is non-empty and shorter
than three, and the heuristic returns the majority-tie default `Small`. -/
theorem c5_witness :
    follow_trend wC5 =
      (if wC5 = [] then BigSmall.Big
       else majorityDefaultSmall (wC5.map Event.bigSmall)) ∧
    follow_trend wC5 = BigSmall.Small :=
  ⟨c5_short_window wC5 (by decide), by decide⟩


/-- One `evaluate` call preserves `total_wins + total_losses =
total_predictions`: each resolution adds 1 to exactly one side tally and to
the total. -/
theorem counterInvariant_evaluate (s : PredictorState) (w : List Event)
    (h : counterInvariant s) : counterInvariant (evaluate s w).2.1 := by
  rcases w with _ | ⟨ev, rest⟩
  · exact h
  by_cases hl : s.last_issue = some ev.issue
  · simpa [evaluate, hl] using h
  rcases hc : s.current_prediction with _ | p
  · simpa [evaluate, hl, score, hc, counterInvariant] using h
  by_cases he : p = ev.bigSmall
  · simp [evaluate, hl, score, hc, he, counterInvariant] at h ⊢
    omega
  · simp [evaluate, hl, score, hc, he, counterInvariant] at h ⊢
    omega

/-- The conservation invariant is preserved by any run of calls. -/
theorem counterInvariant_foldl (ops : List Op) :
    ∀ s : PredictorState, counterInvariant s →
      counterInvariant (ops.foldl applyOp s) := by
  induction ops with
  | nil => exact fun s h => h
  | cons op rest ih =>
    intro s h
    rcases op with w | _
    · exact ih _ (counterInvariant_evaluate s w h)
    · exact ih _ rfl

/-- C2: after any sequence of `evaluate`/`reset_daily` calls from the fresh
predictor, `total_wins + total_losses = total_predictions`; moreover one
`evaluate` call raises `total_predictions` by at most one, and only when the
window is non-empty with a head id differing from the stored one. -/
theorem c2_conservation :
    (∀ ops : List Op, counterInvariant (runOps ops)) ∧
    (∀ (s : PredictorState) (w : List Event),
      (evaluate s w).2.1.total_predictions ≤ s.total_predictions + 1 ∧
      (s.total_predictions < (evaluate s w).2.1.total_predictions →
        ∃ ev rest, w = ev :: rest ∧ s.last_issue ≠ some ev.issue)) := by
  constructor
  · exact fun ops => counterInvariant_foldl ops initState rfl
  intro s w
  rcases w with _ | ⟨ev, rest⟩
  · exact ⟨Nat.le_succ _, fun hlt => absurd hlt (by simp [evaluate])⟩
  by_cases hl : s.last_issue = some ev.issue
  · refine ⟨?_, fun hlt => absurd hlt ?_⟩ <;> simp [evaluate, hl]
  refine ⟨?_, fun _ => ⟨ev, rest, rfl, hl⟩⟩
  rcases hc : s.current_prediction with _ | p
  · simp [evaluate, hl, score, hc]
  · by_cases he : p = ev.bigSmall <;> simp [evaluate, hl, score, hc, he]

/-- C2 witness: the invariant holds after one poll from the fresh state, and
on the concrete mid-session state `sC2` the counter increase is witnessed by
the fresh head id of `wC2`. -/
theorem c2_witness :
    counterInvariant (runOps [Op.observe wC2]) ∧
    (∃ ev rest, wC2 = ev :: rest ∧ sC2.last_issue ≠ some ev.issue) :=
  ⟨c2_conservation.1 [Op.observe wC2],
    (c2_conservation.2 sC2 wC2).2 (by decide)⟩

/-- C9: `analyze` returns the first three magnitudes of a reordering `L` of
the distinct magnitudes of the whole window, where `L` is sorted by count
descending with ties broken by first-occurrence index ascending, and each
entry carries the occurrence count over the whole window; on the empty
window it returns the empty list.  (`analyze` is a pure function of the
window: it reads no predictor state.) -/
theorem c9_analyze_mostcommon :
    (∀ w : List Event, ∃ L : List (Int × Nat × Nat),
      (L.map Prod.fst).Perm (firstEncounter (w.map Event.number)) ∧
      (∀ p ∈ L, p.2.1 = occCount w p.1 ∧ p.2.2 = firstIdx w p.1) ∧
      L.Sorted hotKeyLE ∧
      analyze w = (L.map Prod.fst).take 3) ∧
    analyze ([] : List Event) = [] := by
  refine ⟨fun w => ?_, rfl⟩
  refine ⟨(keyedNumbers w).insertionSort hotKeyLE, ?_, ?_, ?_, rfl⟩
  · have hperm :=
      List.Perm.map Prod.fst (List.perm_insertionSort hotKeyLE (keyedNumbers w))
    have hid : (keyedNumbers w).map Prod.fst =
        firstEncounter (w.map Event.number) := by
      simp only [keyedNumbers, List.map_map]
      exact List.map_id _
    exact hid ▸ hperm
  · intro p hp
    have hp' : p ∈ keyedNumbers w :=
      (List.perm_insertionSort hotKeyLE (keyedNumbers w)).mem_iff.mp hp
    simp only [keyedNumbers, List.mem_map] at hp'
    obtain ⟨m, _, rfl⟩ := hp'
    exact ⟨rfl, rfl⟩
  · exact List.sorted_insertionSort hotKeyLE _

/-- C9 witness: the characterization instantiated at the concrete window
`wC9` (counts: 3 and 7 twice each, 9 and 1 once each). -/
theorem c9_witness :
    ∃ L : List (Int × Nat × Nat),
      (L.map Prod.fst).Perm (firstEncounter (wC9.map Event.number)) ∧
      (∀ p ∈ L, p.2.1 = occCount wC9 p.1 ∧ p.2.2 = firstIdx wC9 p.1) ∧
      L.Sorted hotKeyLE ∧
      analyze wC9 = (L.map Prod.fst).take 3 :=
  c9_analyze_mostcommon.1 wC9

/-- C8 counterexample: with one win out of two resolutions and the stored
seven-character id `"1000000"`, the payload's issue field is the five-char
suffix `"00000"`, not the event id, and its accuracy field is the rounded
percentage `50`, not `totalWins / totalResolved = 1/2`. -/
theorem c8_counterexample :
    (dataRoute sC8 wC8).map (fun pr => (pr.1.issue, pr.1.accuracy)) =
      some ("00000", (50 : ℚ)) ∧
    ("00000" : String) ≠ "1000000" ∧ (50 : ℚ) ≠ 1 / 2 := by
  refine ⟨?_, by decide, by norm_num⟩
  have h1 : dataRoute sC8 wC8 =
      some ({ issue := strLastN "1000000" 5, number := 5,
              result := BigSmall.Big, color := "green",
              prediction := some BigSmall.Big, strategy := "Follow-Trend",
              outcome := "", wins := 1, losses := 1, total := 2,
              accuracy := accuracyOf sC8, hot := analyze wC8 }, sC8, []) := rfl
  have hacc : accuracyOf sC8 = 50 := by
    norm_num [accuracyOf, sC8, pyRound1, roundHalfEven]
  have hiss : strLastN "1000000" 5 = "00000" := by decide
  rw [h1]
  simp [hacc, hiss]

/-- C8 amended: for every non-empty window the `/data` payload carries the
last five characters of the resolved event id, its magnitude, category and
color tag, this call's outcome, the post-call pending prediction and
strategy label, the post-call counters with accuracy
`round(100 * totalWins / totalResolved, 1)` (0 when nothing resolved), and
the hot numbers computed over the supplied window. -/
theorem c8_payload (s : PredictorState) (ev : Event) (rest : List Event) :
    dataRoute s (ev :: rest) =
      some ({ issue := strLastN ev.issue 5, number := ev.number,
              result := ev.bigSmall, color := ev.color,
              prediction := (evaluate s (ev :: rest)).2.1.current_prediction,
              strategy := (evaluate s (ev :: rest)).2.1.strategy,
              outcome := (evaluate s (ev :: rest)).1.outcomeStr,
              wins := (evaluate s (ev :: rest)).2.1.total_wins,
              losses := (evaluate s (ev :: rest)).2.1.total_losses,
              total := (evaluate s (ev :: rest)).2.1.total_predictions,
              accuracy := accuracyOf (evaluate s (ev :: rest)).2.1,
              hot := analyze (ev :: rest) },
            (evaluate s (ev :: rest)).2.1, (evaluate s (ev :: rest)).2.2) := by
  by_cases hl : s.last_issue = some ev.issue
  · simp [dataRoute, evaluate, hl, ObsResult.outcomeStr]
  · simp [dataRoute, evaluate, hl, ObsResult.outcomeStr]

end WinGo
